import Mathlib

/-!
Verification of the msmart cloud client and C3 heat-pump device session
against their natural-language specification.

The definitions below are a shallow embedding of `msmart/cloud.py` and
`msmart/device/C3/device.py` (plus `msmart/device/C3/command.py`):
Python exceptions become `Except`, the event ordering of `_api_request`
becomes an explicit event list, and network and transport effects become
explicit parameters (oracle functions / reply lists).
-/

namespace Msmart

/-! ## Cloud client constants (`msmart/cloud.py`, class `Cloud`) -/

def CLIENT_TYPE : Int := 1

def FORMAT : Int := 2

def LANGUAGE : String := "en_US"

def APP_ID : String := "1010"

def SRC : String := "1010"

def DEVICE_ID : String := "c1acad8939ac0d7d"

def BASE_URL : String := "https://mp-prod.appsmb.com"

def BASE_URL_CHINA : String := "https://mp-prod.smartmidea.net"

def RETRIES : Nat := 3

/-! ## Base URL selection (`Cloud.__init__`)

`Cloud.__init__` consults the environment variable `USE_CHINA_SERVER`
(default `"0"`); when it equals `"1"` the local `use_china_server`
variable is forced to `True`, and the base URL is then chosen from it. -/

/-- The base URL computed by `Cloud.__init__` given the value of the
`USE_CHINA_SERVER` environment variable (`none` when unset) and the
`use_china_server` constructor argument. -/
def cloud_base_url (envVar : Option String) (use_china_server : Bool) : String :=
  let use_china_server := if envVar.getD "0" = "1" then true else use_china_server
  if use_china_server then BASE_URL_CHINA else BASE_URL

/-! ## Response envelope parsing (`Cloud._parse_response`) -/

/-- The `ApiError` exception: carries the server message and code. -/
structure ApiError where
  message : String
  code : Option Int
deriving DecidableEq, Repr

/-- A decoded JSON response envelope `{"code": int, "msg": str, "data": obj}`. -/
structure Envelope (α : Type) where
  code : Int
  msg : String
  data : α
deriving DecidableEq, Repr

/-- `Cloud._parse_response`: code 0 yields the `data` payload, any other
code raises `ApiError(msg, code=response_code)`. -/
def parse_response {α : Type} (env : Envelope α) : Except ApiError α :=
  if env.code = 0 then .ok env.data
  else .error ⟨env.msg, some env.code⟩

/-! ## Posting with retries (`Cloud._post_request`)

Each loop iteration of `_post_request` posts once; the attempt either
times out at the transport layer (`httpx.TimeoutException`), fails with
a bad HTTP status (`raise_for_status`), or returns a response envelope
that `_parse_response` then parses. Only the timeout is caught by the
`except` clause; it decrements `retries` and re-raises once `retries`
hits zero. -/

/-- Outcome of one HTTP POST attempt. -/
inductive Attempt (α : Type) where
  | timeout
  | badStatus
  | reply (env : Envelope α)
deriving DecidableEq, Repr

/-- Errors that `_post_request` can raise. -/
inductive PostErr where
  | timeoutError
  | httpStatusError
  | api (e : ApiError)
deriving DecidableEq, Repr

/-- `Cloud._post_request` as a function of the outcome oracle `attempts`
(attempt number ↦ outcome), the index `i` of the next attempt and the
remaining `retries`. Returns the result together with the number of POST
attempts actually performed. A `retries` of zero exits the `while` loop
and falls through, returning `None`. -/
def post_request {α : Type} (attempts : Nat → Attempt α) (i : Nat) :
    Nat → (Except PostErr (Option α)) × Nat
  | 0 => (.ok none, 0)
  | n + 1 =>
    match attempts i with
    | .timeout =>
      if n = 0 then (.error .timeoutError, 1)
      else
        let r := post_request attempts (i + 1) n
        (r.1, r.2 + 1)
    | .badStatus => (.error .httpStatusError, 1)
    | .reply env =>
      match parse_response env with
      | .ok d => (.ok (some d), 1)
      | .error e => (.error (.api e), 1)

/-! ## Event order inside `Cloud._api_request`

`_api_request` encodes the body, draws the random nonce, signs the
contents, builds the headers and URL, and only then enters
`async with self._api_lock` to post the request. The event list below
records exactly that program order. -/

/-- The observable steps of one `_api_request` call, in program order. -/
inductive ApiEvent where
  | encodeBody
  | genNonce
  | newSign
  | buildHeaders
  | buildUrl
  | lockAcquire
  | postRequest
  | lockRelease
deriving DecidableEq, Repr

/-- The steps of `Cloud._api_request` in the order the source executes
them: `json.dumps`, `token_hex(16)`, `security.new_sign`, header dict,
URL f-string, then `async with self._api_lock` around `_post_request`. -/
def api_request_trace : List ApiEvent :=
  [.encodeBody, .genNonce, .newSign, .buildHeaders, .buildUrl,
   .lockAcquire, .postRequest, .lockRelease]

/-- Position of the first occurrence of an event in a trace. -/
def eventIdx (e : ApiEvent) : List ApiEvent → Nat
  | [] => 0
  | x :: xs => if x = e then 0 else eventIdx e xs + 1

/-! ## Token lookup (`Cloud.get_token`) -/

/-- One entry of the `tokenlist` returned by `/v1/iot/secure/getToken`. -/
structure TokenEntry where
  udpId : String
  token : String
  key : String
deriving DecidableEq, Repr

/-- The scan loop of `Cloud.get_token`: return the token/key of the first
entry whose `udpId` matches, or `(None, None)` when none matches. -/
def get_token : List TokenEntry → String → Option String × Option String
  | [], _ => (none, none)
  | t :: rest, udpid =>
    if t.udpId = udpid then (some t.token, some t.key)
    else get_token rest udpid

/-! ## Request bodies (`Cloud._build_request_body` and `Cloud.login`)

Request bodies are JSON objects; we model them as association lists of
string keys. `dict.update` gives the extra data priority over the base
keys, and never removes a key. -/

/-- A JSON value as used in request bodies. -/
inductive JValue where
  | s (v : String)
  | n (v : Int)
  | obj (fields : List (String × JValue))
deriving Repr

/-- Python `dict.update`: keys of `extra` override those of `base`;
keys present in either dict remain present. -/
def dictUpdate (base extra : List (String × JValue)) : List (String × JValue) :=
  base.filter (fun kv => (extra.lookup kv.1).isNone) ++ extra

/-- `Cloud._build_request_body`: the fixed field set plus the
caller-supplied `data`, `data` taking priority. `stamp` is the formatted
local timestamp and `reqId` the freshly drawn random hex string. -/
def build_request_body (stamp reqId : String) (data : List (String × JValue)) :
    List (String × JValue) :=
  dictUpdate
    [("appId", .s APP_ID),
     ("format", .n FORMAT),
     ("clientType", .n CLIENT_TYPE),
     ("language", .s LANGUAGE),
     ("src", .s SRC),
     ("stamp", .s stamp),
     ("deviceId", .s DEVICE_ID),
     ("reqId", .s reqId)]
    data

/-- The body that `Cloud.login` builds for the `/mj/user/login` call:
only the two top-level keys `data` and `iotData`, with the login fields
nested inside `iotData`. -/
def login_body (account iampwd password pushToken reqId stamp : String) :
    List (String × JValue) :=
  [("data", .obj
      [("platform", .n FORMAT),
       ("deviceId", .s DEVICE_ID)]),
   ("iotData", .obj
      [("appId", .s APP_ID),
       ("clientType", .n CLIENT_TYPE),
       ("iampwd", .s iampwd),
       ("loginAccount", .s account),
       ("password", .s password),
       ("pushToken", .s pushToken),
       ("reqId", .s reqId),
       ("src", .s SRC),
       ("stamp", .s stamp)])]

/-- The body fields the spec requires on every cloud call. -/
def required_body_keys : List String :=
  ["appId", "format", "clientType", "language", "src", "stamp", "deviceId", "reqId"]

/-! ## Login flow (`Cloud.login` and `Cloud._get_login_id`)

The network is modelled by the successful responses it would return:
`loginIdResp` is the `loginId` field produced by `_get_login_id`, and
`loginResp` the response dict stored as the session. We count the
`_api_request` calls performed. -/

/-- The `mdata` object of a login response. -/
structure Mdata where
  accessToken : String
deriving DecidableEq, Repr

/-- A successful `/mj/user/login` response, stored as `self._session`. -/
structure LoginResponse where
  mdata : Mdata
deriving DecidableEq, Repr

/-- The session fields of a `Cloud` instance. `session = none` models the
initial empty (falsy) `self._session = {}` dict. -/
structure CloudSession where
  login_id : Option String
  session : Option LoginResponse
  access_token : String
deriving DecidableEq, Repr

/-- The session state set up by `Cloud.__init__`. -/
def CloudSession.init : CloudSession :=
  { login_id := none, session := none, access_token := "" }

/-- `Cloud.login`: returns the new session state and the number of
`_api_request` network calls performed. If a session exists and `force`
is false it returns immediately; otherwise it resolves the login id
(one request, unless cached) and performs the login exchange (one
request), storing the response as the session and extracting
`mdata.accessToken`. -/
def login (st : CloudSession) (force : Bool)
    (loginIdResp : String) (loginResp : LoginResponse) : CloudSession × Nat :=
  if st.session.isSome ∧ ¬force then (st, 0)
  else
    let lid : String × Nat :=
      match st.login_id with
      | some l => (l, 0)
      | none => (loginIdResp, 1)
    ({ login_id := some lid.1,
       session := some loginResp,
       access_token := loginResp.mdata.accessToken },
     lid.2 + 1)

/-! ## C3 heat-pump device session (`msmart/device/C3/device.py`) -/

/-- A raw reply datagram from the device. -/
abbrev Datagram : Type := List Nat

/-- The `QueryType` tags of `msmart/device/C3/command.py`. -/
inductive QueryType where
  | QUERY_BASIC
  | QUERY_DAY_TIMER
  | QUERY_WEEKS_TIMER
  | QUERY_HOLIDAY_AWAY
  | QUERY_SILENCE
  | QUERY_HOLIDAY_HOME
  | QUERY_ECO
  | QUERY_INSTALL
  | QUERY_DISINFECT
deriving DecidableEq, Repr

/-- Modelled from the spec: `Response` (class absent from the sources,
imported from `command.py` by `device.py`) is an inbound message carrying
the message-type tag of the decoded frame and its raw payload. -/
structure DeviceResponse where
  type : QueryType
  payload : Datagram

/-- Raised by frame decoding on a malformed datagram. -/
structure InvalidFrame where
  reason : String

/-- Modelled from the spec: the base `Device._send_command` transport
(class `Device` of `base_device.py` is absent from the sources). It
awaits reply datagrams within a bounded timeout and yields `none` when
the transport produced zero replies, the received datagrams otherwise. -/
def send_command_transport (replies : List Datagram) : Option (List Datagram) :=
  if replies.isEmpty then none else some replies

/-- The `online`/`supported` flags of a device session. -/
structure SessionFlags where
  online : Bool
  supported : Bool
deriving DecidableEq, Repr

/-- The body of the reply loop of `_send_command_get_responses`: try to
construct a response from the datagram; on `InvalidFrameException` log
and continue, otherwise set `supported` and collect the response. -/
def collect_step (construct : Datagram → Except InvalidFrame DeviceResponse)
    (acc : SessionFlags × List DeviceResponse) (d : Datagram) :
    SessionFlags × List DeviceResponse :=
  match construct d with
  | .error _ => acc
  | .ok r => ({ acc.1 with supported := true }, acc.2 ++ [r])

/-- `HeatPump._send_command_get_responses`: on zero replies mark the
device offline and return `[]`; otherwise mark it online, construct a
`Response` from each datagram via `construct` (the `Response.construct`
frame decoder), skip datagrams that raise `InvalidFrameException`, and
set `supported` once any response is constructed. -/
def send_command_get_responses (st : SessionFlags) (replies : List Datagram)
    (construct : Datagram → Except InvalidFrame DeviceResponse) :
    SessionFlags × List DeviceResponse :=
  match send_command_transport replies with
  | none => ({ st with online := false }, [])
  | some rs => rs.foldl (collect_step construct) ({ st with online := true }, [])

/-- Whether `Response.construct` succeeds on a datagram. -/
def constructOk (construct : Datagram → Except InvalidFrame DeviceResponse)
    (d : Datagram) : Bool :=
  match construct d with
  | .ok _ => true
  | .error _ => false

/-! ## Heat-pump state update (`HeatPump._update_state`)

Python attribute access is dynamic: `_update_state` reads most response
fields with `getattr(res, f"zone{i}_...")`. We model `QueryBasicResponse`
with one integer per attribute (Python booleans are integers) and model
`getattr` as a lookup in the attribute table; a name that is not an
attribute raises `AttributeError`, and the `RunMode(...)` /
`TemperatureType(...)` enum constructors raise `ValueError` on a value
outside the enum. -/

/-- Python exceptions that `_update_state` can raise. -/
inductive PyErr where
  | attributeError (name : String)
  | valueError (v : Int)
deriving DecidableEq, Repr

/-- Modelled from the spec: `QueryBasicResponse` (class absent from the
sources) exposes exactly the identifier-named basic-state attributes
that `HeatPump._update_state` reads — run mode, per-zone settings for
both zones, domestic-hot-water fields, room-thermostat fields, misc
flags and the tank temperature. Python booleans are modelled as the
integers 0/1. -/
structure QueryBasicResponse where
  run_mode : Int
  heat_enable : Int
  cool_enable : Int
  zone2_enable : Int
  zone1_power_state : Int
  zone1_curve_state : Int
  zone1_temp_type : Int
  zone1_terminal_type : Int
  zone1_target_temperature : Int
  zone1_heat_min_temperature : Int
  zone1_heat_max_temperature : Int
  zone1_cool_min_temperature : Int
  zone1_cool_max_temperature : Int
  zone2_power_state : Int
  zone2_curve_state : Int
  zone2_temp_type : Int
  zone2_terminal_type : Int
  zone2_target_temperature : Int
  zone2_heat_min_temperature : Int
  zone2_heat_max_temperature : Int
  zone2_cool_min_temperature : Int
  zone2_cool_max_temperature : Int
  dhw_enable : Int
  dhw_power_state : Int
  dhw_target_temperature : Int
  dhw_min_temperature : Int
  dhw_max_temperature : Int
  room_thermostat_enable : Int
  room_thermostat_power_state : Int
  room_target_temperature : Int
  room_min_temperature : Int
  room_max_temperature : Int
  tbh_state : Int
  fastdhw_state : Int
  tank_temperature : Int

/-- The attribute table of a `QueryBasicResponse` object: attribute name
to value, as Python's `getattr` sees it. -/
def qb_attrs (res : QueryBasicResponse) : List (String × Int) :=
  [("run_mode", res.run_mode),
   ("heat_enable", res.heat_enable),
   ("cool_enable", res.cool_enable),
   ("zone2_enable", res.zone2_enable),
   ("zone1_power_state", res.zone1_power_state),
   ("zone1_curve_state", res.zone1_curve_state),
   ("zone1_temp_type", res.zone1_temp_type),
   ("zone1_terminal_type", res.zone1_terminal_type),
   ("zone1_target_temperature", res.zone1_target_temperature),
   ("zone1_heat_min_temperature", res.zone1_heat_min_temperature),
   ("zone1_heat_max_temperature", res.zone1_heat_max_temperature),
   ("zone1_cool_min_temperature", res.zone1_cool_min_temperature),
   ("zone1_cool_max_temperature", res.zone1_cool_max_temperature),
   ("zone2_power_state", res.zone2_power_state),
   ("zone2_curve_state", res.zone2_curve_state),
   ("zone2_temp_type", res.zone2_temp_type),
   ("zone2_terminal_type", res.zone2_terminal_type),
   ("zone2_target_temperature", res.zone2_target_temperature),
   ("zone2_heat_min_temperature", res.zone2_heat_min_temperature),
   ("zone2_heat_max_temperature", res.zone2_heat_max_temperature),
   ("zone2_cool_min_temperature", res.zone2_cool_min_temperature),
   ("zone2_cool_max_temperature", res.zone2_cool_max_temperature),
   ("dhw_enable", res.dhw_enable),
   ("dhw_power_state", res.dhw_power_state),
   ("dhw_target_temperature", res.dhw_target_temperature),
   ("dhw_min_temperature", res.dhw_min_temperature),
   ("dhw_max_temperature", res.dhw_max_temperature),
   ("room_thermostat_enable", res.room_thermostat_enable),
   ("room_thermostat_power_state", res.room_thermostat_power_state),
   ("room_target_temperature", res.room_target_temperature),
   ("room_min_temperature", res.room_min_temperature),
   ("room_max_temperature", res.room_max_temperature),
   ("tbh_state", res.tbh_state),
   ("fastdhw_state", res.fastdhw_state),
   ("tank_temperature", res.tank_temperature)]

/-- Python `getattr(res, name)`: raises `AttributeError` when `name` is
not an attribute of the response object. -/
def qb_getattr (res : QueryBasicResponse) (name : String) : Except PyErr Int :=
  match (qb_attrs res).lookup name with
  | some v => .ok v
  | none => .error (.attributeError name)

/-- The values of the `HeatPump.RunMode` enum (AUTO, COOL, HEAT, DHW). -/
def run_mode_values : List Int := [1, 2, 3, 5]

/-- The values of the `HeatPump.TemperatureType` enum (AIR, WATER). -/
def temperature_type_values : List Int := [0, 1]

/-- A Python `IntEnum` constructor call: `ValueError` outside the enum. -/
def enum_of (values : List Int) (v : Int) : Except PyErr Int :=
  if v ∈ values then .ok v else .error (.valueError v)

/-- The mutable state of a `HeatPump.Zone` instance. -/
structure Zone where
  power_state : Int
  curve_state : Int
  temperature_type : Option Int
  terminal_type : Option Int
  target_temperature : Int
  min_heat_temperature : Int
  max_heat_temperature : Int
  min_cool_temperature : Int
  max_cool_temperature : Int
deriving DecidableEq, Repr

/-- `HeatPump.Zone.__init__`. -/
def Zone.init : Zone :=
  { power_state := 0, curve_state := 0,
    temperature_type := none, terminal_type := none,
    target_temperature := 25,
    min_heat_temperature := 25, max_heat_temperature := 55,
    min_cool_temperature := 5, max_cool_temperature := 25 }

/-- The mutable state of a `HeatPump` instance. Attributes that
`__init__` leaves unset (`_room_thermostat_power_state` and the other
room-thermostat names written only by `_update_state`, whose `__init__`
counterparts are spelled differently) are `Option Int`, `none` until
first assigned; note `__init__` initialises `_room_termostate_power_state`
(sic) instead. -/
structure HeatPumpState where
  run_mode : Option Int
  heat_enable : Int
  cool_enable : Int
  zone2_enable : Int
  zone_1 : Zone
  zone_2 : Zone
  dhw_enable : Int
  dhw_power_state : Int
  dhw_target_temperature : Int
  dhw_min_temperature : Int
  dhw_max_temperature : Int
  room_thermostat_enable : Int
  room_termostate_power_state : Int
  room_target_temperature : Int
  room_min_temperature : Int
  room_max_temperature : Int
  room_thermostat_power_state : Option Int
  room_thermostat_target_temperature : Option Int
  room_thermostat_min_temperature : Option Int
  room_thermostat_max_temperature : Option Int
  tbh_state : Int
  fastdhw_state : Int
  tank_temperature : Option Int
deriving DecidableEq, Repr

/-- The device state set up by `HeatPump.__init__`. -/
def HeatPumpState.init : HeatPumpState :=
  { run_mode := none,
    heat_enable := 0, cool_enable := 0, zone2_enable := 0,
    zone_1 := Zone.init, zone_2 := Zone.init,
    dhw_enable := 0, dhw_power_state := 0,
    dhw_target_temperature := 25, dhw_min_temperature := 20,
    dhw_max_temperature := 60,
    room_thermostat_enable := 0, room_termostate_power_state := 0,
    room_target_temperature := 25, room_min_temperature := 17,
    room_max_temperature := 30,
    room_thermostat_power_state := none,
    room_thermostat_target_temperature := none,
    room_thermostat_min_temperature := none,
    room_thermostat_max_temperature := none,
    tbh_state := 0, fastdhw_state := 0,
    tank_temperature := none }

/-- The attribute name `f"zone{i}..."` built by the loop of
`_update_state`. -/
def zoneAttr (i : Nat) (suffix : String) : String :=
  "zone" ++ toString i ++ suffix

/-- One iteration of the zone loop of `HeatPump._update_state`. Note the
third `getattr` uses the f-string `f"zone{i}_temp_type)"`, whose
rendered attribute name carries a stray closing parenthesis. -/
def update_zone (res : QueryBasicResponse) (i : Nat) (z : Zone) :
    Except PyErr Zone := do
  let p ← qb_getattr res (zoneAttr i "_power_state")
  let c ← qb_getattr res (zoneAttr i "_curve_state")
  let ttv ← qb_getattr res (zoneAttr i "_temp_type)")
  let tt ← enum_of temperature_type_values ttv
  let term ← qb_getattr res (zoneAttr i "_terminal_type")
  let tgt ← qb_getattr res (zoneAttr i "_target_temperature")
  let hmin ← qb_getattr res (zoneAttr i "_heat_min_temperature")
  let hmax ← qb_getattr res (zoneAttr i "_heat_max_temperature")
  let cmin ← qb_getattr res (zoneAttr i "_cool_min_temperature")
  let cmax ← qb_getattr res (zoneAttr i "_cool_max_temperature")
  return { z with
    power_state := p, curve_state := c,
    temperature_type := some tt, terminal_type := some term,
    target_temperature := tgt,
    min_heat_temperature := hmin, max_heat_temperature := hmax,
    min_cool_temperature := cmin, max_cool_temperature := cmax }

/-- `HeatPump._update_state`: field-by-field copy of a
`QueryBasicResponse` into the device state, raising where the source
raises. -/
def update_state (st : HeatPumpState) (res : QueryBasicResponse) :
    Except PyErr HeatPumpState := do
  let rm ← enum_of run_mode_values res.run_mode
  let z1 ← update_zone res 1 st.zone_1
  let z2 ← update_zone res 2 st.zone_2
  return { st with
    run_mode := some rm,
    heat_enable := res.heat_enable,
    cool_enable := res.cool_enable,
    zone2_enable := res.zone2_enable,
    zone_1 := z1, zone_2 := z2,
    dhw_enable := res.dhw_enable,
    dhw_power_state := res.dhw_power_state,
    dhw_target_temperature := res.dhw_target_temperature,
    dhw_min_temperature := res.dhw_min_temperature,
    dhw_max_temperature := res.dhw_max_temperature,
    room_thermostat_enable := res.room_thermostat_enable,
    room_thermostat_power_state := some res.room_thermostat_power_state,
    room_thermostat_target_temperature := some res.room_target_temperature,
    room_thermostat_min_temperature := some res.room_min_temperature,
    room_thermostat_max_temperature := some res.room_max_temperature,
    tbh_state := res.tbh_state,
    fastdhw_state := res.fastdhw_state,
    tank_temperature := some res.tank_temperature }

/-! ## HeatPump construction (`HeatPump.__init__`) -/

/-- Modelled from the spec: the `DeviceType.HEAT_PUMP` constant of
`msmart/const.py` (absent from the sources); the C3 heat-pump
device-type byte. Its exact value is irrelevant to the claims. -/
def DeviceType_HEAT_PUMP : Nat := 0xC3

/-- Modelled from the spec: the arguments the base `Device.__init__`
(absent from the sources) receives — a device is identified by IP, port
and a vendor device identifier, plus its device type; remaining keyword
arguments are passed along. -/
structure BaseDeviceArgs where
  ip : String
  port : Nat
  device_id : Int
  device_type : Nat
  kwargs : List (String × Int)
deriving DecidableEq, Repr

/-- `HeatPump.__init__`: pops any `device_type` key from `kwargs`, then
calls `super().__init__` with `ip`, `port`, `device_id`,
`device_type=DeviceType.HEAT_PUMP` and the remaining kwargs. Python
raises `TypeError` if a keyword in `**kwargs` collides with one of the
named arguments of the call. -/
def heat_pump_init (ip : String) (device_id : Int) (port : Nat)
    (kwargs : List (String × Int)) : Except String BaseDeviceArgs :=
  let kwargs := kwargs.filter (fun kv => kv.1 ≠ "device_type")
  if kwargs.any (fun kv =>
      kv.1 = "ip" ∨ kv.1 = "port" ∨ kv.1 = "device_id" ∨ kv.1 = "device_type") then
    .error "TypeError: got multiple values for keyword argument"
  else
    .ok { ip := ip, port := port, device_id := device_id,
          device_type := DeviceType_HEAT_PUMP, kwargs := kwargs }

/-! # Theorems -/

/-! ## C1: scope of the API lock in `_api_request` -/

/-- C1. The claim as stated is false: in `Cloud._api_request` the random
nonce is generated and the body signed before the instance lock is
acquired, not inside the critical section — the trace refutes
"nonce generation and the signature ... executed inside the lock". -/
theorem claim_C1_counterexample :
    ¬ (eventIdx .lockAcquire api_request_trace < eventIdx .genNonce api_request_trace ∧
       eventIdx .genNonce api_request_trace < eventIdx .lockRelease api_request_trace ∧
       eventIdx .lockAcquire api_request_trace < eventIdx .newSign api_request_trace ∧
       eventIdx .newSign api_request_trace < eventIdx .lockRelease api_request_trace) := by
  decide

/-- C1 (amended). In `Cloud._api_request` only the HTTP post (through
response receipt) runs inside the instance-scoped lock: nonce
generation and signing precede the lock acquisition, which precedes the
post request, which precedes the lock release. -/
theorem claim_C1 :
    eventIdx .genNonce api_request_trace < eventIdx .newSign api_request_trace ∧
    eventIdx .newSign api_request_trace < eventIdx .lockAcquire api_request_trace ∧
    eventIdx .lockAcquire api_request_trace < eventIdx .postRequest api_request_trace ∧
    eventIdx .postRequest api_request_trace < eventIdx .lockRelease api_request_trace := by
  decide

/-! ## C7: base URL selection in `Cloud.__init__` -/

/-- C7. The claim as stated is false: with `USE_CHINA_SERVER=1` in the
environment, a caller passing `use_china_server=False` still gets the
China base URL — the explicit argument does not win over the
environment toggle. -/
theorem claim_C7_counterexample :
    cloud_base_url (some "1") false = BASE_URL_CHINA ∧ BASE_URL_CHINA ≠ BASE_URL := by
  decide

/-- C7 (amended). The base URL is fixed at construction: a caller's
`use_china_server=True` selects the China server regardless of the
environment; with `use_china_server=False` the environment toggle
decides — the international server unless `USE_CHINA_SERVER` is `"1"`,
in which case the environment forces the China server. -/
theorem claim_C7 (envVar : Option String) :
    cloud_base_url envVar true = BASE_URL_CHINA ∧
    (envVar.getD "0" ≠ "1" → cloud_base_url envVar false = BASE_URL) ∧
    (envVar.getD "0" = "1" → cloud_base_url envVar false = BASE_URL_CHINA) := by
  refine ⟨?_, ?_, ?_⟩ <;> unfold cloud_base_url
  · by_cases h : envVar.getD "0" = "1" <;> simp [h]
  · intro h; simp [h]
  · intro h; simp [h]

/-- C7 witness: concrete environment states. -/
theorem claim_C7_witness :
    cloud_base_url none true = BASE_URL_CHINA ∧
    cloud_base_url none false = BASE_URL ∧
    cloud_base_url (some "1") false = BASE_URL_CHINA :=
  ⟨(claim_C7 none).1, (claim_C7 none).2.1 (by decide), (claim_C7 (some "1")).2.2 rfl⟩

/-! ## C2: retry policy of `_post_request` -/

/-- When every attempt times out, `_post_request` performs exactly `n`
attempts and re-raises the timeout. -/
lemma post_request_all_timeout {α : Type} (a : Nat → Attempt α)
    (h : ∀ j, a j = .timeout) :
    ∀ n i, 0 < n → post_request a i n = (.error .timeoutError, n) := by
  intro n
  induction n with
  | zero => intro i h0; exact absurd h0 (by simp)
  | succ m ih =>
    intro i _
    simp only [post_request, h i]
    cases m with
    | zero => simp
    | succ k =>
      simp only [Nat.succ_ne_zero, if_false]
      rw [ih (i + 1) (Nat.succ_pos k)]

/-- C2. Retry policy of `Cloud._post_request`: a call whose every attempt
times out at the transport layer is attempted exactly `RETRIES` (3)
times and then the timeout re-raises; two timeouts followed by a
success return the successful payload without raising; a non-timeout
failure (bad HTTP status, or a nonzero envelope code) on the first
attempt propagates immediately after that single attempt. -/
theorem claim_C2 :
    (∀ (α : Type) (a : Nat → Attempt α), (∀ j, a j = .timeout) →
      post_request a 0 RETRIES = (.error .timeoutError, RETRIES)) ∧
    (∀ (α : Type) (a : Nat → Attempt α) (env : Envelope α),
      a 0 = .timeout → a 1 = .timeout → a 2 = .reply env → env.code = 0 →
      post_request a 0 RETRIES = (.ok (some env.data), 3)) ∧
    (∀ (α : Type) (a : Nat → Attempt α), a 0 = .badStatus →
      post_request a 0 RETRIES = (.error .httpStatusError, 1)) ∧
    (∀ (α : Type) (a : Nat → Attempt α) (env : Envelope α),
      a 0 = .reply env → env.code ≠ 0 →
      post_request a 0 RETRIES = (.error (.api ⟨env.msg, some env.code⟩), 1)) := by
  refine ⟨?_, ?_, ?_, ?_⟩
  · intro α a h
    exact post_request_all_timeout a h RETRIES 0 (by decide)
  · intro α a env h0 h1 h2 hc
    show post_request a 0 (2 + 1) = _
    simp only [post_request, h0, h1, h2, parse_response, hc]
    simp
  · intro α a h0
    show post_request a 0 (2 + 1) = _
    simp only [post_request, h0]
  · intro α a env h0 hc
    show post_request a 0 (2 + 1) = _
    simp only [post_request, h0, parse_response, if_neg hc]

/-- C2 witness: concrete attempt oracles over `Nat` payloads. -/
theorem claim_C2_witness :
    post_request (fun _ => (Attempt.timeout : Attempt Nat)) 0 RETRIES =
      (.error .timeoutError, RETRIES) ∧
    post_request (fun i => if i < 2 then Attempt.timeout else .reply ⟨0, "ok", (7 : Nat)⟩)
      0 RETRIES = (.ok (some 7), 3) ∧
    post_request (fun _ => (Attempt.badStatus : Attempt Nat)) 0 RETRIES =
      (.error .httpStatusError, 1) ∧
    post_request (fun _ => Attempt.reply ⟨40001, "invalid sign", (0 : Nat)⟩) 0 RETRIES =
      (.error (.api ⟨"invalid sign", some 40001⟩), 1) :=
  ⟨claim_C2.1 Nat _ (fun _ => rfl),
   claim_C2.2.1 Nat _ ⟨0, "ok", 7⟩ rfl rfl rfl rfl,
   claim_C2.2.2.1 Nat _ rfl,
   claim_C2.2.2.2 Nat _ ⟨40001, "invalid sign", 0⟩ rfl (by decide)⟩

/-! ## C3: envelope parsing and the non-retry of API errors -/

/-- C3. `Cloud._parse_response`: a zero `code` yields the `data` payload;
a nonzero `code` raises `ApiError` carrying the server's `msg` and
`code` verbatim, and such an error is never retried — a first attempt
answered with a nonzero envelope makes `_post_request` raise after that
single attempt. -/
theorem claim_C3 {α : Type} (env : Envelope α) :
    (env.code = 0 → parse_response env = .ok env.data) ∧
    (env.code ≠ 0 →
      parse_response env = .error ⟨env.msg, some env.code⟩ ∧
      ∀ a : Nat → Attempt α, a 0 = .reply env →
        post_request a 0 RETRIES = (.error (.api ⟨env.msg, some env.code⟩), 1)) := by
  constructor
  · intro h; simp [parse_response, h]
  · intro h
    refine ⟨by simp [parse_response, h], ?_⟩
    intro a h0
    show post_request a 0 (2 + 1) = _
    simp only [post_request, h0, parse_response, if_neg h]

/-- C3 witness: a success envelope and an error envelope. -/
theorem claim_C3_witness :
    parse_response (⟨0, "", (5 : Nat)⟩ : Envelope Nat) = .ok 5 ∧
    parse_response (⟨1004, "token expired", (0 : Nat)⟩ : Envelope Nat) =
      .error ⟨"token expired", some 1004⟩ ∧
    post_request (fun _ => Attempt.reply ⟨1004, "token expired", (0 : Nat)⟩) 0 RETRIES =
      (.error (.api ⟨"token expired", some 1004⟩), 1) :=
  ⟨(claim_C3 ⟨0, "", 5⟩).1 rfl,
   ((claim_C3 ⟨1004, "token expired", 0⟩).2 (by decide)).1,
   ((claim_C3 ⟨1004, "token expired", 0⟩).2 (by decide)).2 _ rfl⟩

/-! ## C4: login idempotence -/

/-- C4. `Cloud.login`: when a session already exists, `login(force=False)`
returns immediately with no network request and the session state
unchanged; `login(force=True)` performs the login exchange again — at
least one network request — and stores the fresh response as the
session, with the access token taken from its `mdata.accessToken`. -/
theorem claim_C4 (st : CloudSession) (loginIdResp : String) (loginResp : LoginResponse)
    (h : st.session.isSome) :
    login st false loginIdResp loginResp = (st, 0) ∧
    1 ≤ (login st true loginIdResp loginResp).2 ∧
    (login st true loginIdResp loginResp).1.session = some loginResp ∧
    (login st true loginIdResp loginResp).1.access_token = loginResp.mdata.accessToken := by
  refine ⟨?_, ?_⟩
  · simp [login, h]
  · unfold login
    cases hl : st.login_id <;> simp [h, hl]

/-- C4 witness: a logged-in session. -/
theorem claim_C4_witness :
    login ⟨some "lid", some ⟨⟨"tok"⟩⟩, "tok"⟩ false "lid2" ⟨⟨"tok2"⟩⟩ =
      (⟨some "lid", some ⟨⟨"tok"⟩⟩, "tok"⟩, 0) ∧
    1 ≤ (login ⟨some "lid", some ⟨⟨"tok"⟩⟩, "tok"⟩ true "lid2" ⟨⟨"tok2"⟩⟩).2 ∧
    (login ⟨some "lid", some ⟨⟨"tok"⟩⟩, "tok"⟩ true "lid2" ⟨⟨"tok2"⟩⟩).1.session =
      some ⟨⟨"tok2"⟩⟩ :=
  ⟨(claim_C4 ⟨some "lid", some ⟨⟨"tok"⟩⟩, "tok"⟩ "lid2" ⟨⟨"tok2"⟩⟩ rfl).1,
   (claim_C4 ⟨some "lid", some ⟨⟨"tok"⟩⟩, "tok"⟩ "lid2" ⟨⟨"tok2"⟩⟩ rfl).2.1,
   (claim_C4 ⟨some "lid", some ⟨⟨"tok"⟩⟩, "tok"⟩ "lid2" ⟨⟨"tok2"⟩⟩ rfl).2.2.1⟩

/-! ## C5: token lookup misses are not errors -/

/-- C5. `Cloud.get_token`: when no entry of the returned token list has
a matching `udpId`, the result is the explicit pair `(None, None)` and
no exception is raised; when a matching entry exists (the first one the
scan meets), its token and key are returned. -/
theorem claim_C5 (l : List TokenEntry) (u : String) :
    ((∀ t ∈ l, t.udpId ≠ u) → get_token l u = (none, none)) ∧
    (∀ t, l.find? (fun x => x.udpId == u) = some t →
      get_token l u = (some t.token, some t.key)) := by
  induction l with
  | nil =>
    refine ⟨fun _ => rfl, ?_⟩
    intro t ht
    simp [List.find?] at ht
  | cons a l ih =>
    constructor
    · intro h
      have ha : a.udpId ≠ u := h a (List.mem_cons_self a l)
      rw [get_token, if_neg ha]
      exact ih.1 (fun t ht => h t (List.mem_cons_of_mem a ht))
    · intro t ht
      by_cases hu : a.udpId = u
      · rw [List.find?_cons_of_pos _ (by simp [hu])] at ht
        cases ht
        rw [get_token, if_pos hu]
      · rw [List.find?_cons_of_neg _ (by simp [hu])] at ht
        rw [get_token, if_neg hu]
        exact ih.2 t ht

/-- C5 witness: a miss on a two-entry token list and a hit on the same. -/
theorem claim_C5_witness :
    get_token [⟨"aa", "t1", "k1"⟩, ⟨"bb", "t2", "k2"⟩] "cc" = (none, none) ∧
    get_token [⟨"aa", "t1", "k1"⟩, ⟨"bb", "t2", "k2"⟩] "bb" = (some "t2", some "k2") :=
  ⟨(claim_C5 [⟨"aa", "t1", "k1"⟩, ⟨"bb", "t2", "k2"⟩] "cc").1 (by decide),
   (claim_C5 [⟨"aa", "t1", "k1"⟩, ⟨"bb", "t2", "k2"⟩] "bb").2 ⟨"bb", "t2", "k2"⟩ (by decide)⟩

/-! ## C6: required body fields -/

/-- Lookup distributes over append: a key is found in `l₁ ++ l₂` exactly
when it is found in either part. -/
lemma lookup_append_isSome (l₁ l₂ : List (String × JValue)) (k : String) :
    ((l₁ ++ l₂).lookup k).isSome = ((l₁.lookup k).isSome || (l₂.lookup k).isSome) := by
  induction l₁ with
  | nil => simp
  | cons a l₁ ih =>
    obtain ⟨a, v⟩ := a
    by_cases hk : k = a
    · subst hk; simp [List.lookup]
    · simp only [List.cons_append, List.lookup, beq_eq_false_iff_ne.mpr hk]
      exact ih

/-- A key found in the base dict and absent from the update survives the
filter that `dictUpdate` applies to the base. -/
lemma lookup_filter_isSome (base extra : List (String × JValue)) (k : String)
    (hb : (base.lookup k).isSome) (he : extra.lookup k = none) :
    ((base.filter fun kv => (extra.lookup kv.1).isNone).lookup k).isSome := by
  induction base with
  | nil => simp [List.lookup] at hb
  | cons a base ih =>
    obtain ⟨a, v⟩ := a
    by_cases hk : k = a
    · subst hk
      have hkeep : (extra.lookup k).isNone = true := by simp [he]
      simp [List.filter, hkeep, List.lookup]
    · rw [List.lookup, beq_eq_false_iff_ne.mpr hk] at hb
      rcases hkeep : (extra.lookup a).isNone with hfalse | htrue
      · simpa [List.filter_cons, hkeep] using ih hb
      · simp only [List.filter_cons, hkeep, if_pos]
        rw [List.lookup, beq_eq_false_iff_ne.mpr hk]
        exact ih hb

/-- `dict.update` never removes a key: anything found in the base dict is
still found after the update. -/
lemma dictUpdate_lookup_isSome (base extra : List (String × JValue)) (k : String)
    (hb : (base.lookup k).isSome) :
    ((dictUpdate base extra).lookup k).isSome := by
  unfold dictUpdate
  rw [lookup_append_isSome]
  cases he : extra.lookup k with
  | some v => simp
  | none => simp [lookup_filter_isSome base extra k hb he]

/-- C6. The claim as stated is false for the login call: the body that
`Cloud.login` posts to `/mj/user/login` has only the top-level keys
`data` and `iotData`, so the required field `appId` (like `format`,
`language`, `deviceId`, …) is absent from the top level of that body. -/
theorem claim_C6_counterexample :
    "appId" ∈ required_body_keys ∧
    (login_body "acct" "iam" "pw" "push" "rid" "20240101000000").lookup "appId" = none :=
  ⟨by decide, rfl⟩

/-- C6 (amended). Every request body built through
`Cloud._build_request_body` — as used by `_get_login_id` and
`get_token` — contains all of the required fields `appId`, `format`,
`clientType`, `language`, `src`, `stamp`, `deviceId` and `reqId`, for
any additional data the caller merges in; the login call does not go
through `_build_request_body` and its body lacks these top-level
fields. -/
theorem claim_C6 (stamp reqId : String) (data : List (String × JValue))
    (k : String) (hk : k ∈ required_body_keys) :
    ((build_request_body stamp reqId data).lookup k).isSome := by
  apply dictUpdate_lookup_isSome
  fin_cases hk <;> rfl

/-- C6 witness: a concrete `getToken` body contains each required key. -/
theorem claim_C6_witness :
    ((build_request_body "20240101000000" "00ff" [("udpid", .s "1234")]).lookup
      "appId").isSome ∧
    ((build_request_body "20240101000000" "00ff" [("udpid", .s "1234")]).lookup
      "stamp").isSome :=
  ⟨claim_C6 "20240101000000" "00ff" [("udpid", .s "1234")] "appId" (by decide),
   claim_C6 "20240101000000" "00ff" [("udpid", .s "1234")] "stamp" (by decide)⟩

/-! ## C8: offline detection and the online/supported flags -/

/-- The reply loop never touches `online` and sets `supported` exactly
when the accumulator already had it or some datagram constructs. -/
lemma collect_foldl_flags (construct : Datagram → Except InvalidFrame DeviceResponse) :
    ∀ (rs : List Datagram) (acc : SessionFlags × List DeviceResponse),
      (rs.foldl (collect_step construct) acc).1.online = acc.1.online ∧
      (rs.foldl (collect_step construct) acc).1.supported =
        (acc.1.supported || rs.any (constructOk construct)) := by
  intro rs
  induction rs with
  | nil => intro acc; simp
  | cons d rs ih =>
    intro acc
    rcases hc : construct d with e | r
    · have hstep : collect_step construct acc d = acc := by
        simp [collect_step, hc]
      have hok : constructOk construct d = false := by
        simp [constructOk, hc]
      simp only [List.foldl_cons, List.any_cons, hstep, hok, Bool.false_or]
      exact ih acc
    · have hstep : collect_step construct acc d =
          ({ acc.1 with supported := true }, acc.2 ++ [r]) := by
        simp [collect_step, hc]
      have hok : constructOk construct d = true := by
        simp [constructOk, hc]
      simp only [List.foldl_cons, List.any_cons, hstep, hok, Bool.true_or]
      refine ⟨(ih _).1, ?_⟩
      rw [(ih _).2]
      simp

/-- C8. `HeatPump._send_command_get_responses`: zero replies from the
transport yield an empty response list and mark the device offline
without raising; after any send, `online` holds exactly when the send
produced at least one reply, and `supported` becomes true exactly when
it already was or at least one reply was successfully constructed into
a `Response`. -/
theorem claim_C8 (st : SessionFlags) (replies : List Datagram)
    (construct : Datagram → Except InvalidFrame DeviceResponse) :
    (replies = [] →
      send_command_get_responses st replies construct = ({ st with online := false }, [])) ∧
    (send_command_get_responses st replies construct).1.online = !replies.isEmpty ∧
    (send_command_get_responses st replies construct).1.supported =
      (st.supported || replies.any (constructOk construct)) := by
  refine ⟨?_, ?_, ?_⟩
  · intro h
    subst h
    rfl
  · cases replies with
    | nil => rfl
    | cons d rs =>
      show (List.foldl (collect_step construct)
        ({ st with online := true }, []) (d :: rs)).1.online = !(d :: rs).isEmpty
      rw [(collect_foldl_flags construct (d :: rs) _).1]
      rfl
  · cases replies with
    | nil => simp [send_command_get_responses, send_command_transport]
    | cons d rs =>
      show (List.foldl (collect_step construct)
          ({ st with online := true }, []) (d :: rs)).1.supported =
        (st.supported || (d :: rs).any (constructOk construct))
      rw [(collect_foldl_flags construct (d :: rs) _).2]

/-- C8 witness: a fresh session, an empty reply list, and a two-reply
list in which only the second datagram decodes. -/
theorem claim_C8_witness :
    (send_command_get_responses ⟨false, false⟩ []
        (fun _ => .ok ⟨.QUERY_BASIC, []⟩) = (⟨false, false⟩, [])) ∧
    (send_command_get_responses ⟨false, false⟩ [[1], [2]]
        (fun d => if d = [2] then .ok ⟨.QUERY_BASIC, d⟩ else .error ⟨"bad CRC"⟩)).1.online
      = true ∧
    (send_command_get_responses ⟨false, false⟩ [[1], [2]]
        (fun d => if d = [2] then .ok ⟨.QUERY_BASIC, d⟩ else .error ⟨"bad CRC"⟩)).1.supported
      = true := by
  refine ⟨(claim_C8 ⟨false, false⟩ [] _).1 rfl, ?_, ?_⟩
  · rw [(claim_C8 ⟨false, false⟩ [[1], [2]] _).2.1]
    rfl
  · rw [(claim_C8 ⟨false, false⟩ [[1], [2]] _).2.2]
    rfl

/-! ## C9: `_update_state` and the misrendered attribute name -/

/-- The f-string of the zone loop renders the stray parenthesis into the
attribute name. -/
lemma zoneAttr_one_temp_type : zoneAttr 1 "_temp_type)" = "zone1_temp_type)" := rfl

/-- No attribute of `QueryBasicResponse` is named `zone1_temp_type)`. -/
lemma qb_getattr_temp_type_paren (res : QueryBasicResponse) :
    qb_getattr res "zone1_temp_type)" = .error (.attributeError "zone1_temp_type)") := rfl

/-- C9. The field-by-field copy never completes: for every device state
and every basic-state response whose `run_mode` is a valid `RunMode`
value, `_update_state` raises `AttributeError` on the misspelled
attribute name `zone1_temp_type)` (the f-string
`f"zone{i}_temp_type)"` at the third zone read), so no response is ever
applied to the state. -/
theorem claim_C9 (st : HeatPumpState) (res : QueryBasicResponse)
    (h : res.run_mode ∈ run_mode_values) :
    update_state st res = .error (.attributeError "zone1_temp_type)") := by
  have h1 : enum_of run_mode_values res.run_mode = .ok res.run_mode := by
    unfold enum_of
    rw [if_pos h]
  unfold update_state
  rw [h1]
  rfl

/-- C9 witness: the initial device state and a fully concrete response
with `run_mode = HEAT`. -/
theorem claim_C9_witness :
    update_state HeatPumpState.init
      ⟨3, 1, 0, 1,  1, 0, 0, 0, 30, 25, 55, 5, 25,  0, 0, 1, 1, 35, 25, 55, 5, 25,
       1, 1, 45, 20, 60,  1, 0, 21, 17, 30,  0, 0, 48⟩ =
      .error (.attributeError "zone1_temp_type)") :=
  claim_C9 HeatPumpState.init _ (by decide)

/-! ## C10: `HeatPump.__init__` discards a `device_type` kwarg -/

/-- C10. `HeatPump.__init__` always constructs the base device with
`device_type = HEAT_PUMP`: a `device_type` keyword argument supplied by
the caller is popped before the `super().__init__` call, so it neither
changes the device type nor collides with the explicitly passed one,
while `ip`, `port` and `device_id` pass through unchanged. -/
theorem claim_C10 (ip : String) (device_id : Int) (port : Nat)
    (kwargs : List (String × Int))
    (h : ∀ kv ∈ kwargs, kv.1 ≠ "ip" ∧ kv.1 ≠ "port" ∧ kv.1 ≠ "device_id") :
    heat_pump_init ip device_id port kwargs =
      .ok { ip := ip, port := port, device_id := device_id,
            device_type := DeviceType_HEAT_PUMP,
            kwargs := kwargs.filter (fun kv => kv.1 ≠ "device_type") } := by
  unfold heat_pump_init
  rw [if_neg]
  intro hany
  rw [List.any_eq_true] at hany
  obtain ⟨kv, hkv, hprop⟩ := hany
  obtain ⟨hmem, hne⟩ := List.mem_filter.mp hkv
  obtain ⟨hip, hport, hid⟩ := h kv hmem
  have hnt : kv.1 ≠ "device_type" := by simpa using hne
  rcases of_decide_eq_true hprop with h' | h' | h' | h'
  · exact hip h'
  · exact hport h'
  · exact hid h'
  · exact hnt h'

/-- C10 witness: a caller passing a conflicting `device_type=0xAC` kwarg
still gets a heat-pump device with its ip, port and id intact. -/
theorem claim_C10_witness :
    heat_pump_init "10.0.0.7" 1234567890 6444 [("device_type", 172)] =
      .ok { ip := "10.0.0.7", port := 6444, device_id := 1234567890,
            device_type := DeviceType_HEAT_PUMP, kwargs := [] } :=
  claim_C10 "10.0.0.7" 1234567890 6444 [("device_type", 172)] (by decide)

end Msmart
